import Mathlib

/-!
Shallow embedding of the core of `tableauquerybuilderpublic.py`:
the filter widgets and their JSON (de)serialization, the query-payload
builders, the schedule store and trigger engine, the scheduled
execute-and-export pipeline, the request-retry paths, and the
cancellable query worker.

Modelling conventions:
* Qt widget state is captured by a structure holding exactly the fields
  the Python code reads and writes (combo current index / current text,
  line-edit text, date-edit date, spin-box value, list selection).
* A `QLineEdit` guarded by a `QDoubleValidator` is modelled as
  `Option Rat`: empty text is `none`, otherwise the parsed double value
  (Python's `float`/`str` round-trip is exact on such values).
* A `QDateEdit` date and its canonical ISO-8601 wire string `YYYY-MM-DD`
  are identified with the date's components.
* Network and filesystem effects are made explicit: response oracles are
  parameters, and file writes are returned as data.
-/

/-- Calendar date as held by a `QDateEdit`; the wire form is the canonical
ISO-8601 string `YYYY-MM-DD`, identified here with its components. -/
structure QDate where
  year : Nat
  month : Nat
  day : Nat
deriving DecidableEq, Repr

/-- JSON value as produced by the filter serializers and payload builders.
Python floats are identified with their rational values, ints with
integers, and canonical ISO date strings with `QDate`. -/
inductive Json where
  | str : String → Json
  | num : Rat → Json
  | int : Int → Json
  | bool : Bool → Json
  | date : QDate → Json
  | arr : List Json → Json
  | obj : List (String × Json) → Json

/-- Key lookup in a JSON object's field list (Python `dict` access;
keys written by this program are unique, first match wins). -/
def getKey : List (String × Json) → String → Option Json
  | [], _ => none
  | (k, v) :: rest, key => if k = key then some v else getKey rest key

/-- `d.get(key)` on a JSON object; `none` on non-objects. -/
def Json.get? : Json → String → Option Json
  | .obj kvs, key => getKey kvs key
  | _, _ => none

/-- `key in d` for a JSON object. -/
def Json.hasKey (j : Json) (key : String) : Bool :=
  (j.get? key).isSome

def Json.asStr? : Json → Option String
  | .str s => some s
  | _ => none

def Json.asNum? : Json → Option Rat
  | .num q => some q
  | .int n => some (n : Rat)
  | _ => none

def Json.asInt? : Json → Option Int
  | .int n => some n
  | _ => none

def Json.asDate? : Json → Option QDate
  | .date d => some d
  | _ => none

/-- String elements of a JSON array (the shape `values` lists take). -/
def Json.asStrList : Json → List String
  | .arr xs => xs.filterMap Json.asStr?
  | _ => []

/-- Items of the aggregation combo in `NumberFilterWidget.setup_ui`;
the first item `SUM` is the initial current text. -/
def function_items : List String := ["SUM", "AVG", "MIN", "MAX", "COUNT"]

/-- Items of the period-type combo in `DateFilterWidget.setup_ui`. -/
def period_type_items : List String := ["DAYS", "WEEKS", "MONTHS", "QUARTERS", "YEARS"]

/-- Items of the date-range-type combo in `DateFilterWidget.setup_ui`. -/
def date_range_type_items : List String := ["LAST", "CURRENT", "NEXT", "LASTN", "NEXTN", "TODATE"]

/-- State of a `StringFilterWidget`: the field name, the fetched
distinct values populating `values_list` (row order), and the selected
items in row order (`selectedItems`). -/
structure StringFilterWidget where
  field_name : String
  all_values : List String
  selected_values : List String
deriving DecidableEq, Repr

/-- `StringFilterWidget.get_filter_dict`. -/
def StringFilterWidget.get_filter_dict (w : StringFilterWidget) : Json :=
  Json.obj [("filterType", Json.str "SET"),
            ("field", Json.obj [("fieldCaption", Json.str w.field_name)]),
            ("exclude", Json.bool false),
            ("values", Json.arr (w.selected_values.map Json.str))]

/-- State of a `NumberFilterWidget`: filter-type combo index
(0 Range, 1 Min Only, 2 Max Only, 3 Only Null, 4 Only Non-Null),
aggregation combo text, and the four numeric line edits. -/
structure NumberFilterWidget where
  field_name : String
  filter_type_index : Nat
  function_text : String
  min_input : Option Rat
  max_input : Option Rat
  min_only_input : Option Rat
  max_only_input : Option Rat
deriving DecidableEq, Repr

/-- A `min`/`max` entry emitted only when the corresponding line edit is
nonempty (`if self.min_input.text(): filter_dict["min"] = float(...)`). -/
def optEntry (key : String) : Option Rat → List (String × Json)
  | some v => [(key, Json.num v)]
  | none => []

/-- `NumberFilterWidget.get_filter_dict`. -/
def NumberFilterWidget.get_filter_dict (w : NumberFilterWidget) : Json :=
  let fieldObj :=
    ("fieldCaption", Json.str w.field_name) ::
      (if w.function_text ≠ "" then [("function", Json.str w.function_text)] else [])
  let tail :=
    if w.filter_type_index = 0 then
      ("quantitativeFilterType", Json.str "RANGE") ::
        (optEntry "min" w.min_input ++ optEntry "max" w.max_input)
    else if w.filter_type_index = 1 then
      ("quantitativeFilterType", Json.str "MIN") :: optEntry "min" w.min_only_input
    else if w.filter_type_index = 2 then
      ("quantitativeFilterType", Json.str "MAX") :: optEntry "max" w.max_only_input
    else if w.filter_type_index = 3 then
      [("quantitativeFilterType", Json.str "ONLY_NULL")]
    else if w.filter_type_index = 4 then
      [("quantitativeFilterType", Json.str "ONLY_NON_NULL")]
    else []
  Json.obj (("filterType", Json.str "QUANTITATIVE_NUMERICAL") ::
            ("field", Json.obj fieldObj) :: tail)

/-- State of a `DateFilterWidget`: main combo index (0 Quantitative,
1 Relative), quantitative sub-combo index (0 Range, 1 Min Date,
2 Max Date, 3 Only Null, 4 Only Non-Null), the four date edits, the
relative combos and the Range-N spin box (range 1..1000, initial 30). -/
structure DateFilterWidget where
  field_name : String
  filter_type_index : Nat
  quant_type_index : Nat
  from_date : QDate
  to_date : QDate
  min_only_date : QDate
  max_only_date : QDate
  period_type : String
  date_range_type : String
  range_n : Int
deriving DecidableEq, Repr

/-- `DateFilterWidget.get_filter_dict`. -/
def DateFilterWidget.get_filter_dict (w : DateFilterWidget) : Json :=
  if w.filter_type_index = 0 then
    let tail :=
      if w.quant_type_index = 0 then
        [("quantitativeFilterType", Json.str "RANGE"),
         ("minDate", Json.date w.from_date), ("maxDate", Json.date w.to_date)]
      else if w.quant_type_index = 1 then
        [("quantitativeFilterType", Json.str "MIN"), ("minDate", Json.date w.min_only_date)]
      else if w.quant_type_index = 2 then
        [("quantitativeFilterType", Json.str "MAX"), ("maxDate", Json.date w.max_only_date)]
      else if w.quant_type_index = 3 then
        [("quantitativeFilterType", Json.str "ONLY_NULL")]
      else if w.quant_type_index = 4 then
        [("quantitativeFilterType", Json.str "ONLY_NON_NULL")]
      else []
    Json.obj (("filterType", Json.str "QUANTITATIVE_DATE") ::
              ("field", Json.obj [("fieldCaption", Json.str w.field_name)]) :: tail)
  else
    Json.obj (("filterType", Json.str "DATE") ::
              ("field", Json.obj [("fieldCaption", Json.str w.field_name)]) ::
              ("periodType", Json.str w.period_type) ::
              ("dateRangeType", Json.str w.date_range_type) ::
              (if w.date_range_type ∈ ["LASTN", "NEXTN"] then
                [("rangeN", Json.int w.range_n)]
               else []))

/-- The closed union of filter widget kinds (`isinstance` dispatch). -/
inductive FilterWidget where
  | string : StringFilterWidget → FilterWidget
  | number : NumberFilterWidget → FilterWidget
  | date : DateFilterWidget → FilterWidget
deriving DecidableEq, Repr

/-- `get_filter_dict` dispatched over the widget kind. -/
def FilterWidget.get_filter_dict : FilterWidget → Json
  | .string w => w.get_filter_dict
  | .number w => w.get_filter_dict
  | .date w => w.get_filter_dict

/-- A freshly constructed `StringFilterWidget(field_name, ...)`:
no values fetched, nothing selected. -/
def StringFilterWidget_new (field_name : String) : StringFilterWidget :=
  ⟨field_name, [], []⟩

/-- A freshly constructed `NumberFilterWidget(field_name, ...)` after
`setup_ui`: both combos at index 0 (current text `SUM`), all line edits
empty. -/
def NumberFilterWidget_new (field_name : String) : NumberFilterWidget :=
  ⟨field_name, 0, "SUM", none, none, none, none⟩

/-- A freshly constructed `DateFilterWidget(field_name, ...)` after
`setup_ui`: quantitative range mode, from/min dates one month ago,
to/max dates today, period `DAYS`, range type `LAST`, range-N 30. -/
def DateFilterWidget_new (field_name : String) (today one_month_ago : QDate) :
    DateFilterWidget :=
  ⟨field_name, 0, 0, one_month_ago, today, one_month_ago, today, "DAYS", "LAST", 30⟩

/-- `configure_filter_widget`, `StringFilterWidget` branch, composed with
the deferred `fetch_available_values`/`select_filter_values` steps:
`values_to_select` is taken from the dict, the distinct-value probe
returns `fetched` (already `sorted(list(set(...)))` by the fetch code),
and the items whose text occurs in `values_to_select` are selected in
row order. When the dict has no `values` key nothing is done. -/
def configure_string_filter (w : StringFilterWidget) (filter_dict : Json)
    (fetched : List String) : StringFilterWidget :=
  match filter_dict.get? "values" with
  | some v =>
      let values_to_select := v.asStrList
      ⟨w.field_name, fetched, fetched.filter (fun x => values_to_select.contains x)⟩
  | none => w

/-- `configure_filter_widget`, `NumberFilterWidget` branch. -/
def configure_number_filter (w : NumberFilterWidget) (filter_dict : Json) :
    NumberFilterWidget :=
  let quant_type := ((filter_dict.get? "quantitativeFilterType").bind Json.asStr?).getD ""
  let w1 :=
    if quant_type = "RANGE" then
      { w with filter_type_index := 0,
               min_input := ((filter_dict.get? "min").bind Json.asNum?).elim w.min_input some,
               max_input := ((filter_dict.get? "max").bind Json.asNum?).elim w.max_input some }
    else if quant_type = "MIN" then
      { w with filter_type_index := 1,
               min_only_input := ((filter_dict.get? "min").bind Json.asNum?).elim w.min_only_input some }
    else if quant_type = "MAX" then
      { w with filter_type_index := 2,
               max_only_input := ((filter_dict.get? "max").bind Json.asNum?).elim w.max_only_input some }
    else if quant_type = "ONLY_NULL" then
      { w with filter_type_index := 3 }
    else if quant_type = "ONLY_NON_NULL" then
      { w with filter_type_index := 4 }
    else w
  match (filter_dict.get? "field").bind (fun f => (f.get? "function").bind Json.asStr?) with
  | some fn => if fn ∈ function_items then { w1 with function_text := fn } else w1
  | none => w1

/-- `QSpinBox.setValue` clamps into the box's 1..1000 range. -/
def spin_clamp (n : Int) : Int := max 1 (min 1000 n)

/-- `configure_filter_widget`, `DateFilterWidget` branch. -/
def configure_date_filter (w : DateFilterWidget) (filter_dict : Json) :
    DateFilterWidget :=
  let filter_type := ((filter_dict.get? "filterType").bind Json.asStr?).getD ""
  if filter_type = "QUANTITATIVE_DATE" then
    let w0 := { w with filter_type_index := 0 }
    let quant_type := ((filter_dict.get? "quantitativeFilterType").bind Json.asStr?).getD ""
    if quant_type = "RANGE" then
      let w1 := { w0 with quant_type_index := 0 }
      let w2 := ((filter_dict.get? "minDate").bind Json.asDate?).elim w1
                  (fun d => { w1 with from_date := d })
      ((filter_dict.get? "maxDate").bind Json.asDate?).elim w2
        (fun d => { w2 with to_date := d })
    else if quant_type = "MIN" then
      let w1 := { w0 with quant_type_index := 1 }
      ((filter_dict.get? "minDate").bind Json.asDate?).elim w1
        (fun d => { w1 with min_only_date := d })
    else if quant_type = "MAX" then
      let w1 := { w0 with quant_type_index := 2 }
      ((filter_dict.get? "maxDate").bind Json.asDate?).elim w1
        (fun d => { w1 with max_only_date := d })
    else if quant_type = "ONLY_NULL" then
      { w0 with quant_type_index := 3 }
    else if quant_type = "ONLY_NON_NULL" then
      { w0 with quant_type_index := 4 }
    else w0
  else if filter_type = "DATE" then
    let w0 := { w with filter_type_index := 1 }
    let p := ((filter_dict.get? "periodType").bind Json.asStr?).getD "DAYS"
    let w1 := if p ∈ period_type_items then { w0 with period_type := p } else w0
    let r := ((filter_dict.get? "dateRangeType").bind Json.asStr?).getD "LAST"
    let w2 := if r ∈ date_range_type_items then { w1 with date_range_type := r } else w1
    match (filter_dict.get? "rangeN").bind Json.asInt? with
    | some n => { w2 with range_n := spin_clamp n }
    | none => w2
  else w

/-- The filter-recreation step of `apply_selected_query`: extract the
field caption (skip when missing or empty), dispatch on `filterType` to
construct the matching fresh widget (`none` = "Unknown filter type",
skipped), then run `configure_filter_widget` on it. `fetched` is the
distinct-value list the categorical probe returns; `today` and
`one_month_ago` seed the fresh date edits. -/
def apply_query_filter (filter_dict : Json) (fetched : List String)
    (today one_month_ago : QDate) : Option FilterWidget :=
  let field_name :=
    (((filter_dict.get? "field").getD (Json.obj [])).get? "fieldCaption"
      |>.bind Json.asStr?).getD ""
  if field_name = "" then none
  else
    let filter_type := ((filter_dict.get? "filterType").bind Json.asStr?).getD ""
    if filter_type = "QUANTITATIVE_DATE" ∨ filter_type = "DATE" then
      some (.date (configure_date_filter
        (DateFilterWidget_new field_name today one_month_ago) filter_dict))
    else if filter_type = "QUANTITATIVE_NUMERICAL" then
      some (.number (configure_number_filter (NumberFilterWidget_new field_name) filter_dict))
    else if filter_type = "SET" then
      some (.string (configure_string_filter (StringFilterWidget_new field_name)
        filter_dict fetched))
    else none

/-- Quantitative sub-modes shared by the numeric and date filters. -/
inductive QuantMode where
  | range
  | minOnly
  | maxOnly
  | onlyNull
  | onlyNonNull
deriving DecidableEq, Repr

/-- Combo index 0..4 to quantitative sub-mode. -/
def mode_of_index : Nat → QuantMode
  | 0 => .range
  | 1 => .minOnly
  | 2 => .maxOnly
  | 3 => .onlyNull
  | _ => .onlyNonNull

/-- The abstract tagged-union Filter value a widget denotes (the data
the serializer reads; hidden controls of unselected modes are not part
of the value). -/
inductive FilterValue where
  | categorical (field : String) (exclude : Bool) (values : List String)
  | numericRange (field : String) (mode : QuantMode) (min max : Option Rat)
      (aggregation : Option String)
  | dateQuantitative (field : String) (mode : QuantMode) (minDate maxDate : Option QDate)
  | dateRelative (field : String) (periodType dateRangeType : String) (rangeN : Option Int)
deriving DecidableEq, Repr

/-- The min value the serializer would emit for the current mode. -/
def NumberFilterWidget.min_set (w : NumberFilterWidget) : Option Rat :=
  if w.filter_type_index = 0 then w.min_input
  else if w.filter_type_index = 1 then w.min_only_input
  else none

/-- The max value the serializer would emit for the current mode. -/
def NumberFilterWidget.max_set (w : NumberFilterWidget) : Option Rat :=
  if w.filter_type_index = 0 then w.max_input
  else if w.filter_type_index = 2 then w.max_only_input
  else none

/-- Abstraction from widget state to the Filter value it denotes. -/
def FilterWidget.abstract : FilterWidget → FilterValue
  | .string w => .categorical w.field_name false w.selected_values
  | .number w =>
      .numericRange w.field_name (mode_of_index w.filter_type_index) w.min_set w.max_set
        (if w.function_text ≠ "" then some w.function_text else none)
  | .date w =>
      if w.filter_type_index = 0 then
        .dateQuantitative w.field_name (mode_of_index w.quant_type_index)
          (if w.quant_type_index = 0 then some w.from_date
           else if w.quant_type_index = 1 then some w.min_only_date else none)
          (if w.quant_type_index = 0 then some w.to_date
           else if w.quant_type_index = 2 then some w.max_only_date else none)
      else
        .dateRelative w.field_name w.period_type w.date_range_type
          (if w.date_range_type ∈ ["LASTN", "NEXTN"] then some w.range_n else none)

/-- Constructibility of a `StringFilterWidget` state: the field name is
nonempty and the selection is drawn from the populated list, reported in
row order (so it equals the list filtered to the selected texts). -/
def StringFilterWidget.Constructible (w : StringFilterWidget) : Prop :=
  w.field_name ≠ "" ∧
  w.selected_values = w.all_values.filter (fun x => w.selected_values.contains x)

instance (w : StringFilterWidget) : Decidable w.Constructible := by
  unfold StringFilterWidget.Constructible
  infer_instance

/-- Constructibility of a `NumberFilterWidget` state: combo index in
0..4 and aggregation text one of the five combo items. -/
def NumberFilterWidget.Constructible (w : NumberFilterWidget) : Prop :=
  w.field_name ≠ "" ∧ w.filter_type_index ≤ 4 ∧ w.function_text ∈ function_items

instance (w : NumberFilterWidget) : Decidable w.Constructible := by
  unfold NumberFilterWidget.Constructible
  infer_instance

/-- Constructibility of a `DateFilterWidget` state: combo indices and
combo texts within their item lists, spin-box value within 1..1000. -/
def DateFilterWidget.Constructible (w : DateFilterWidget) : Prop :=
  w.field_name ≠ "" ∧ w.filter_type_index ≤ 1 ∧ w.quant_type_index ≤ 4 ∧
  w.period_type ∈ period_type_items ∧ w.date_range_type ∈ date_range_type_items ∧
  1 ≤ w.range_n ∧ w.range_n ≤ 1000

instance (w : DateFilterWidget) : Decidable w.Constructible := by
  unfold DateFilterWidget.Constructible
  infer_instance

/-- Constructibility over the widget union. -/
def FilterWidget.Constructible : FilterWidget → Prop
  | .string w => w.Constructible
  | .number w => w.Constructible
  | .date w => w.Constructible

instance : (w : FilterWidget) → Decidable w.Constructible
  | .string w => inferInstanceAs (Decidable w.Constructible)
  | .number w => inferInstanceAs (Decidable w.Constructible)
  | .date w => inferInstanceAs (Decidable w.Constructible)

/-- A dimension entry of the wire payload: `fieldCaption` only. -/
def dimension_field (f : String) : Json :=
  Json.obj [("fieldCaption", Json.str f)]

/-- A measure entry of the wire payload: `fieldCaption` plus `function`. -/
def measure_field (f agg : String) : Json :=
  Json.obj [("fieldCaption", Json.str f), ("function", Json.str agg)]

/-- Field list built by `TableauApp.query_data_source`: the selected
dimensions truncated to the first ten (`selectedItems()[:10]`), then the
measure rows whose dropdown is not the `Select Measure` placeholder.
The function returns only the field list; no warning accompanies the
truncation. -/
def query_data_source_fields (selected_dimensions : List String)
    (measure_rows : List (String × String)) : List Json :=
  (selected_dimensions.take 10).map dimension_field ++
    measure_rows.filterMap (fun p =>
      if p.1 ≠ "Select Measure" then some (measure_field p.1 p.2) else none)

/-- Dimension list stored into a schedule dict by
`TableauApp.save_schedule`: every selected item, with no cap. -/
def save_schedule_dimensions (selected_items : List String) : List String :=
  selected_items

/-- Field list built by `run_scheduled_query_standalone` (and likewise
`TableauApp.run_scheduled_query`) from a stored schedule's dimensions
and measures: all of them, uncapped. -/
def standalone_query_fields (dimensions : List String)
    (measures : List (String × String)) : List Json :=
  dimensions.map dimension_field ++ measures.map (fun p => measure_field p.1 p.2)

/-- Left-to-right `str.format` scan over the pattern characters,
replacing the three supported placeholders; `fuel` is the remaining
character count (the scan consumes at least one character per step). -/
def format_scan (name date time : String) : Nat → List Char → List Char
  | 0, _ => []
  | _, [] => []
  | Nat.succ fuel, c :: rest =>
      if c = '\x7b' ∧ rest.take 5 = ['n', 'a', 'm', 'e', '\x7d'] then
        name.data ++ format_scan name date time fuel (rest.drop 5)
      else if c = '\x7b' ∧ rest.take 5 = ['d', 'a', 't', 'e', '\x7d'] then
        date.data ++ format_scan name date time fuel (rest.drop 5)
      else if c = '\x7b' ∧ rest.take 5 = ['t', 'i', 'm', 'e', '\x7d'] then
        time.data ++ format_scan name date time fuel (rest.drop 5)
      else c :: format_scan name date time fuel rest

/-- The `str.format` placeholder substitution applied to the output
pattern: the `name`, `date` and `time` placeholders (spelled with
braces in the pattern) are substituted. -/
def format_output_pattern (pat name date time : String) : String :=
  String.mk (format_scan name date time pat.data.length pat.data)

/-- `.csv` is appended when the lowercased filename lacks the suffix
(`if not filename.lower().endswith('.csv')`). -/
def ensure_csv (filename : String) : String :=
  if (filename.data.map Char.toLower).reverse.take 4 = ['v', 's', 'c', '.'] then filename
  else filename ++ ".csv"

/-- `os.path.join(output_dir, filename)`. -/
def path_join (dir file : String) : String :=
  dir ++ "/" ++ file

/-- A query result record: ordered field-name/value pairs. -/
abbrev QueryRecord := List (String × String)

/-- Observable outcome of one scheduled run: the returned status message
and the files created in the output directory together with the CSV rows
written to each. A file entry appears the moment `open(path, "w")` runs,
row list empty until something is written. -/
structure RunOutcome where
  message : String
  files : List (String × List (List String))
deriving DecidableEq, Repr

/-- Response handling and export tail of `run_scheduled_query_standalone`
(the method `TableauApp.run_scheduled_query` repeats the same logic):
on a 200 response the output path is derived from the pattern and the
file is opened for writing --- creating it --- before the result list is
inspected; a nonempty result list receives a header row (the keys of the
first record) plus one stringified row per record, while an empty result
list leaves the just-created file empty and reports the no-results
message. Any other status is reported as a failure with no file touched. -/
def run_scheduled_query_standalone (sched_name output_pattern output_dir : String)
    (status_code : Nat) (response_text : String) (data : List QueryRecord)
    (date_str time_str : String) : RunOutcome :=
  if status_code = 200 then
    let filename := ensure_csv (format_output_pattern output_pattern sched_name date_str time_str)
    let output_path := path_join output_dir filename
    match data with
    | [] => ⟨"Query completed but returned no results", [(output_path, [])]⟩
    | first :: rest =>
        let header := first.map Prod.fst
        let rows := (first :: rest).map (fun r => r.map Prod.snd)
        ⟨"Query completed successfully. Results saved to " ++ output_path,
         [(output_path, header :: rows)]⟩
  else
    ⟨"Query failed with status " ++ toString status_code ++ ": " ++ response_text, []⟩

/-- A stored schedule entry: the dict assembled by `save_schedule`
(frequency-specific day fields present only for their frequency). -/
structure ScheduleRec where
  name : String
  output_pattern : String
  output_dir : String
  frequency : String
  hour : Int
  minute : Int
  day_of_week : Option Int
  day_of_month : Option Int
  dimensions : List String
  measures : List (String × String)
  filters : List Json

/-- Cron trigger parameters passed to `scheduler.add_job`. -/
structure CronTrigger where
  day_of_week : Option Int
  day : Option Int
  hour : Int
  minute : Int
deriving DecidableEq, Repr

/-- `job_id = "query_" + name.replace(' ', '_')` (single-character
replace is a character map). -/
def job_id_for (name : String) : String :=
  "query_" ++ String.mk (name.data.map (fun c => if c = ' ' then '_' else c))

/-- A live scheduler job held by the trigger engine. -/
structure SchedulerJob where
  id : String
  name : String
  trigger : CronTrigger
  schedule_dict : ScheduleRec

/-- `scheduler.add_job(..., replace_existing=True)`: atomically replaces
any job with the same id. -/
def add_job (jobs : List SchedulerJob) (j : SchedulerJob) : List SchedulerJob :=
  jobs.filter (fun x => decide (x.id ≠ j.id)) ++ [j]

/-- `scheduler.remove_job(job_id)`. -/
def remove_job (jobs : List SchedulerJob) (id : String) : List SchedulerJob :=
  jobs.filter (fun x => decide (x.id ≠ id))

/-- `scheduler.get_job(job_id)`. -/
def get_job (jobs : List SchedulerJob) (id : String) : Option SchedulerJob :=
  jobs.find? (fun x => decide (x.id = id))

/-- One scheduler mutation issued by `save_schedule`. -/
inductive SchedOp where
  | removeJob (id : String)
  | addJob (j : SchedulerJob)

/-- Apply one scheduler mutation to the live job list. -/
def apply_op (jobs : List SchedulerJob) : SchedOp → List SchedulerJob
  | .removeJob id => remove_job jobs id
  | .addJob j => add_job jobs j

/-- The cron trigger `save_schedule` passes to `add_job` for each
frequency. -/
def save_schedule_trigger (s : ScheduleRec) : CronTrigger :=
  if s.frequency = "Weekly" then ⟨s.day_of_week, none, s.hour, s.minute⟩
  else if s.frequency = "Monthly" then ⟨none, s.day_of_month, s.hour, s.minute⟩
  else ⟨none, none, s.hour, s.minute⟩

/-- The scheduler job `save_schedule` registers for a schedule. -/
def save_schedule_job (s : ScheduleRec) : SchedulerJob :=
  ⟨job_id_for s.name, s.name, save_schedule_trigger s, s⟩

/-- The update loop of `save_schedule`: replace the first stored entry
with the same name (`for ... break`), reporting whether one was found. -/
def replace_first : List ScheduleRec → ScheduleRec → List ScheduleRec × Bool
  | [], _ => ([], false)
  | e :: rest, s =>
      if e.name = s.name then (s :: rest, true)
      else
        let p := replace_first rest s
        (e :: p.1, p.2)

/-- The in-memory schedule store plus the live scheduler jobs. -/
structure SchedulerState where
  schedules : List ScheduleRec
  jobs : List SchedulerJob

/-- Scheduler operations `save_schedule` issues, in program order: when
an entry with the name already exists and a live job with its id exists,
the old job is removed first; then, for the three known frequencies, the
new job is added with `replace_existing=True`. -/
def save_schedule_ops (st : SchedulerState) (s : ScheduleRec) : List SchedOp :=
  (if (replace_first st.schedules s).2 ∧ (get_job st.jobs (job_id_for s.name)).isSome then
    [SchedOp.removeJob (job_id_for s.name)]
   else []) ++
  (if s.frequency = "Daily" ∨ s.frequency = "Weekly" ∨ s.frequency = "Monthly" then
    [SchedOp.addJob (save_schedule_job s)]
   else [])

/-- `TableauApp.save_schedule`: update-or-append the stored schedule
entry, then apply the scheduler operations in order. -/
def save_schedule (st : SchedulerState) (s : ScheduleRec) : SchedulerState :=
  ⟨if (replace_first st.schedules s).2 then (replace_first st.schedules s).1
    else st.schedules ++ [s],
   (save_schedule_ops st s).foldl apply_op st.jobs⟩

/-- The stored schedules carrying a given name. -/
def schedules_named (l : List ScheduleRec) (n : String) : List ScheduleRec :=
  l.filter (fun e => decide (e.name = n))

/-- The live jobs carrying a given job id. -/
def jobs_with_id (jobs : List SchedulerJob) (id : String) : List SchedulerJob :=
  jobs.filter (fun j => decide (j.id = id))

/-- First save of the duplicate-name scenario: `Weekly Report`, weekly
on Tuesday at 09:00. -/
def weekly_report_v1 : ScheduleRec :=
  ⟨"Weekly Report", "report_\x7bdate\x7d", "/out", "Weekly", 9, 0, some 1, none,
   ["Region"], [("Sales", "SUM")], []⟩

/-- Second save of the duplicate-name scenario: same name, now daily at
08:30. -/
def weekly_report_v2 : ScheduleRec :=
  ⟨"Weekly Report", "report2_\x7bdate\x7d", "/out", "Daily", 8, 30, none, none,
   ["Region"], [("Sales", "AVG")], []⟩

/-- A schedule entry as parsed back from `saved_schedules.json`: any of
the fields the replay code touches may be missing (a missing key raises
`KeyError` at the point of access). -/
structure LoadedSchedule where
  name : Option String
  frequency : Option String
  hour : Option Int
  minute : Option Int
  day_of_week : Option Int
  day_of_month : Option Int
deriving DecidableEq, Repr

/-- Modelled from the spec: the underlying trigger mechanism (the
external background scheduler, out of scope of src beyond its call
sites) validates cadence values when a job is added and raises on
invalid ones --- `day_of_week` 0..6, day-of-month 1..31, hour 0..23,
minute 0..59; the raise is what the replay code's handler catches as a
reconstruction failure for invalid cadence data. -/
def cron_trigger_valid (t : CronTrigger) : Bool :=
  (match t.day_of_week with
   | some d => decide (0 ≤ d ∧ d ≤ 6)
   | none => true) &&
  (match t.day with
   | some d => decide (1 ≤ d ∧ d ≤ 31)
   | none => true) &&
  decide (0 ≤ t.hour ∧ t.hour ≤ 23) && decide (0 ≤ t.minute ∧ t.minute ≤ 59)

/-- `add_job` on the replay path: an invalid cadence raises (caught by
the caller, leaving the jobs unchanged); otherwise the job replaces any
existing job with the same id. -/
def try_add_job (jobs : List (String × CronTrigger)) (id : String) (t : CronTrigger) :
    List (String × CronTrigger) :=
  if cron_trigger_valid t then jobs.filter (fun x => decide (x.1 ≠ id)) ++ [(id, t)]
  else jobs

/-- `TableauApp.recreate_schedule_job`: total --- a missing required
key (`KeyError`) or an add failure is caught, logged and skipped; a
Weekly or Monthly entry lacking its day field silently falls through the
`elif` chain without adding a job. -/
def recreate_schedule_job (jobs : List (String × CronTrigger)) (d : LoadedSchedule) :
    List (String × CronTrigger) :=
  match d.name, d.frequency, d.hour, d.minute with
  | some name, some freq, some h, some m =>
      if freq = "Daily" then try_add_job jobs (job_id_for name) ⟨none, none, h, m⟩
      else if freq = "Weekly" then
        match d.day_of_week with
        | some dw => try_add_job jobs (job_id_for name) ⟨some dw, none, h, m⟩
        | none => jobs
      else if freq = "Monthly" then
        match d.day_of_month with
        | some dm => try_add_job jobs (job_id_for name) ⟨none, some dm, h, m⟩
        | none => jobs
      else jobs
  | _, _, _, _ => jobs

/-- The job `recreate_schedule_job` registers for an entry, when the
entry is replayable (required fields present, known frequency, cadence
accepted); `none` when the entry is skipped. -/
def LoadedSchedule.replay_job (d : LoadedSchedule) : Option (String × CronTrigger) :=
  match d.name, d.frequency, d.hour, d.minute with
  | some name, some freq, some h, some m =>
      if freq = "Daily" then
        if cron_trigger_valid ⟨none, none, h, m⟩ then
          some (job_id_for name, ⟨none, none, h, m⟩)
        else none
      else if freq = "Weekly" then
        match d.day_of_week with
        | some dw =>
            if cron_trigger_valid ⟨some dw, none, h, m⟩ then
              some (job_id_for name, ⟨some dw, none, h, m⟩)
            else none
        | none => none
      else if freq = "Monthly" then
        match d.day_of_month with
        | some dm =>
            if cron_trigger_valid ⟨none, some dm, h, m⟩ then
              some (job_id_for name, ⟨none, some dm, h, m⟩)
            else none
        | none => none
      else none
  | _, _, _, _ => none

/-- `TableauApp.load_schedules_from_disk`: replay every persisted
entry, in order, into the trigger engine, starting from no live
triggers. -/
def load_schedules_from_disk (schedules : List LoadedSchedule) :
    List (String × CronTrigger) :=
  schedules.foldl recreate_schedule_job []

/-- Job ids of the replayable entries of a persisted list. -/
def replay_ids (l : List LoadedSchedule) : List String :=
  l.filterMap (fun d => d.replay_job.map Prod.fst)

/-- A replayable daily entry. -/
def daily_sales_entry : LoadedSchedule :=
  ⟨some "Daily Sales", some "Daily", some 9, some 0, none, none⟩

/-- An entry with invalid cadence data (unknown frequency). -/
def broken_entry : LoadedSchedule :=
  ⟨some "Broken", some "Fortnightly", some 9, some 0, none, none⟩

/-- A replayable weekly entry. -/
def weekly_report_entry : LoadedSchedule :=
  ⟨some "Weekly Report", some "Weekly", some 8, some 30, some 1, none⟩

/-- One observable effect of a request path: an HTTP post of the
original request, a re-authentication (`sign_in`), or the fixed
inter-attempt delay (`time.sleep(2)`). -/
inductive ReqEvent where
  | post
  | sign_in
  | sleep
deriving DecidableEq, Repr

/-- The retry loop of `TableauApp.fetch_fields` over the remaining
attempt numbers, against a response oracle giving the status code of
each attempt's post: a 200 stops with success; a 401 triggers an
immediate `sign_in` and the loop continues; any other status surfaces
the error text and the loop also continues; a `time.sleep(2)` separates
attempts (`if attempt < 2`). -/
def fetch_fields_attempts (responses : Nat → Nat) : List Nat → List ReqEvent × Bool
  | [] => ([], false)
  | attempt :: rest =>
      if responses attempt = 200 then ([ReqEvent.post], true)
      else
        let evs := ReqEvent.post ::
          ((if responses attempt = 401 then [ReqEvent.sign_in] else []) ++
           (if attempt < 2 then [ReqEvent.sleep] else []))
        let t := fetch_fields_attempts responses rest
        (evs ++ t.1, t.2)

/-- `TableauApp.fetch_fields`: `for attempt in range(3)`. -/
def fetch_fields (responses : Nat → Nat) : List ReqEvent × Bool :=
  fetch_fields_attempts responses [0, 1, 2]

/-- The request portion of `TableauApp.query_data_source`: a single
post; any non-200 status (a 401 included) is shown as an error with no
re-authentication and no retry. -/
def query_data_source_request (status : Nat) : List ReqEvent × Bool :=
  ([ReqEvent.post], decide (status = 200))

/-- The `is_cancelled` flag as observed at a given step of the worker
body, when `cancel()` runs just before step `cancel_at` (and `none`
means `cancel()` never runs during the body). -/
def is_cancelled_at (cancel_at : Option Nat) (step : Nat) : Bool :=
  match cancel_at with
  | some k => decide (k ≤ step)
  | none => false

/-- `QueryWorker.run` as its sequence of atomic steps, between which
`cancel()` may interleave: step 0 the pre-request cancellation check,
step 1 the HTTP post, step 2 the post-response cancellation check (on
the exception path, the `if not self.is_cancelled` guard), step 3 the
signal emission. Returns whether a completion signal (success or error)
is emitted. -/
def query_worker_run (cancel_at : Option Nat) : Bool :=
  if is_cancelled_at cancel_at 0 then false
  else if is_cancelled_at cancel_at 2 then false
  else true

/-- A completion signal is observed after cancellation when the run
emits its signal and `cancel()` ran before the emission step. -/
def emitted_after_cancel (cancel_at : Option Nat) : Bool :=
  query_worker_run cancel_at &&
    (match cancel_at with
     | some k => decide (k ≤ 3)
     | none => false)

/-- Clamping is the identity on values already inside the spin box range. -/
theorem spin_clamp_eq {n : Int} (h1 : 1 ≤ n) (h2 : n ≤ 1000) : spin_clamp n = n := by
  unfold spin_clamp
  omega

/-- String extraction is a left inverse of wrapping strings in an array. -/
theorem asStrList_map_str (xs : List String) :
    Json.asStrList (Json.arr (xs.map Json.str)) = xs := by
  induction xs with
  | nil => rfl
  | cons x xs ih =>
      simp [Json.asStrList, Json.asStr?] at ih ⊢
      exact ih

set_option maxHeartbeats 1000000 in
/-- Round trip for a constructible numeric-range filter widget. -/
theorem round_trip_number (w : NumberFilterWidget) (fetched : List String)
    (today one_month_ago : QDate) (hw : w.Constructible) :
    ∃ w2, apply_query_filter (FilterWidget.number w).get_filter_dict fetched today
        one_month_ago = some w2 ∧
      w2.get_filter_dict = (FilterWidget.number w).get_filter_dict ∧
      w2.abstract = (FilterWidget.number w).abstract := by
  obtain ⟨fn, idx, ft, mi, ma, moi, mao⟩ := w
  obtain ⟨h1, h2, h3⟩ := hw
  have hne : ft ≠ "" := by
    rintro rfl
    simp [function_items] at h3
  interval_cases idx
  · rcases mi with _ | mi <;> rcases ma with _ | ma <;>
      simp [apply_query_filter, FilterWidget.get_filter_dict, FilterWidget.abstract,
        NumberFilterWidget.get_filter_dict, NumberFilterWidget_new, configure_number_filter,
        optEntry, Json.get?, getKey, Json.asStr?, Json.asNum?, h1, hne, h3,
        NumberFilterWidget.min_set, NumberFilterWidget.max_set, mode_of_index]
  · rcases moi with _ | moi <;>
      simp [apply_query_filter, FilterWidget.get_filter_dict, FilterWidget.abstract,
        NumberFilterWidget.get_filter_dict, NumberFilterWidget_new, configure_number_filter,
        optEntry, Json.get?, getKey, Json.asStr?, Json.asNum?, h1, hne, h3,
        NumberFilterWidget.min_set, NumberFilterWidget.max_set, mode_of_index]
  · rcases mao with _ | mao <;>
      simp [apply_query_filter, FilterWidget.get_filter_dict, FilterWidget.abstract,
        NumberFilterWidget.get_filter_dict, NumberFilterWidget_new, configure_number_filter,
        optEntry, Json.get?, getKey, Json.asStr?, Json.asNum?, h1, hne, h3,
        NumberFilterWidget.min_set, NumberFilterWidget.max_set, mode_of_index]
  · simp [apply_query_filter, FilterWidget.get_filter_dict, FilterWidget.abstract,
        NumberFilterWidget.get_filter_dict, NumberFilterWidget_new, configure_number_filter,
        optEntry, Json.get?, getKey, Json.asStr?, Json.asNum?, h1, hne, h3,
        NumberFilterWidget.min_set, NumberFilterWidget.max_set, mode_of_index]
  · simp [apply_query_filter, FilterWidget.get_filter_dict, FilterWidget.abstract,
        NumberFilterWidget.get_filter_dict, NumberFilterWidget_new, configure_number_filter,
        optEntry, Json.get?, getKey, Json.asStr?, Json.asNum?, h1, hne, h3,
        NumberFilterWidget.min_set, NumberFilterWidget.max_set, mode_of_index]

set_option maxHeartbeats 1000000 in
/-- Round trip for a constructible categorical filter widget, when the
distinct-value probe returns the values the widget was built from. -/
theorem round_trip_string (w : StringFilterWidget) (today one_month_ago : QDate)
    (hw : w.Constructible) :
    ∃ w2, apply_query_filter (FilterWidget.string w).get_filter_dict w.all_values today
        one_month_ago = some w2 ∧
      w2.get_filter_dict = (FilterWidget.string w).get_filter_dict ∧
      w2.abstract = (FilterWidget.string w).abstract := by
  obtain ⟨fn, av, sel⟩ := w
  obtain ⟨h1, h2⟩ := hw
  dsimp only at h1 h2
  simp only [List.elem_eq_mem] at h2
  simp [apply_query_filter, FilterWidget.get_filter_dict, FilterWidget.abstract,
    StringFilterWidget.get_filter_dict, StringFilterWidget_new, configure_string_filter,
    Json.get?, getKey, Json.asStr?, h1, asStrList_map_str]
  exact ⟨by rw [← h2], h2.symm⟩

set_option maxHeartbeats 2000000 in
/-- Round trip for a constructible date filter widget. -/
theorem round_trip_date (w : DateFilterWidget) (fetched : List String)
    (today one_month_ago : QDate) (hw : w.Constructible) :
    ∃ w2, apply_query_filter (FilterWidget.date w).get_filter_dict fetched today
        one_month_ago = some w2 ∧
      w2.get_filter_dict = (FilterWidget.date w).get_filter_dict ∧
      w2.abstract = (FilterWidget.date w).abstract := by
  obtain ⟨fn, fti, qti, fd, td, mod, mxd, pt, drt, rn⟩ := w
  obtain ⟨h1, h2, h3, h4, h5, h6, h7⟩ := hw
  dsimp only at h1 h2 h3 h4 h5 h6 h7
  simp only [period_type_items, List.mem_cons, List.not_mem_nil, or_false] at h4
  interval_cases fti
  · interval_cases qti <;>
      simp [apply_query_filter, FilterWidget.get_filter_dict, FilterWidget.abstract,
        DateFilterWidget.get_filter_dict, DateFilterWidget_new, configure_date_filter,
        Json.get?, getKey, Json.asStr?, Json.asDate?, h1, mode_of_index]
  · fin_cases h5 <;>
      simp [apply_query_filter, FilterWidget.get_filter_dict, FilterWidget.abstract,
        DateFilterWidget.get_filter_dict, DateFilterWidget_new, configure_date_filter,
        Json.get?, getKey, Json.asStr?, Json.asDate?, Json.asInt?, h1, h4,
        spin_clamp_eq h6 h7, mode_of_index, period_type_items, date_range_type_items]

/-- C1: for every filter value constructible by this system (categorical
SET, numeric range in every mode, date filter in every quantitative
sub-mode and every relative periodType/dateRangeType combination),
deserializing its serialized JSON dict through the saved-query load path
(`apply_selected_query` dispatch plus `configure_filter_widget`) yields a
widget denoting the same filter value, and re-serializing that widget
reproduces the identical JSON. For a categorical filter the load path
re-probes the datasource for distinct values; the hypothesis `hfetch`
states that the probe returns the same value list the filter was built
from (the round trip runs against the same datasource). -/
theorem c1_filter_round_trip (w : FilterWidget) (fetched : List String)
    (today one_month_ago : QDate) (hw : w.Constructible)
    (hfetch : ∀ s, w = FilterWidget.string s → fetched = s.all_values) :
    ∃ w2, apply_query_filter w.get_filter_dict fetched today one_month_ago = some w2 ∧
      w2.get_filter_dict = w.get_filter_dict ∧
      w2.abstract = w.abstract := by
  cases w with
  | string s =>
      rw [hfetch s rfl]
      exact round_trip_string s today one_month_ago hw
  | number n => exact round_trip_number n fetched today one_month_ago hw
  | date d => exact round_trip_date d fetched today one_month_ago hw

/-- Concrete instantiation of the round trip: a categorical filter on
`Region` with two of three values selected, probed against the same
value list. -/
theorem c1_filter_round_trip_witness :
    (FilterWidget.string ⟨"Region", ["East", "North", "West"], ["East", "West"]⟩).Constructible ∧
    ∃ w2, apply_query_filter
        (FilterWidget.string ⟨"Region", ["East", "North", "West"], ["East", "West"]⟩).get_filter_dict
        ["East", "North", "West"] ⟨2024, 2, 1⟩ ⟨2024, 1, 1⟩ = some w2 ∧
      w2.get_filter_dict =
        (FilterWidget.string ⟨"Region", ["East", "North", "West"], ["East", "West"]⟩).get_filter_dict ∧
      w2.abstract =
        (FilterWidget.string ⟨"Region", ["East", "North", "West"], ["East", "West"]⟩).abstract :=
  ⟨by decide, c1_filter_round_trip
    (FilterWidget.string ⟨"Region", ["East", "North", "West"], ["East", "West"]⟩)
    ["East", "North", "West"] ⟨2024, 2, 1⟩ ⟨2024, 1, 1⟩ (by decide)
    (fun s h => by injection h with h2; rw [← h2])⟩

/-- C4: for every constructible numeric-range filter widget, the
serialized JSON holds a `min` key exactly when a min value is set for
the current mode, with the value itself (never null), and likewise for
`max`; modes without a bound emit no key at all. -/
theorem c4_numeric_min_max_key_iff (w : NumberFilterWidget) (hw : w.Constructible) :
    w.get_filter_dict.get? "min" = w.min_set.map Json.num ∧
    w.get_filter_dict.get? "max" = w.max_set.map Json.num := by
  obtain ⟨fn, idx, ft, mi, ma, moi, mao⟩ := w
  obtain ⟨h1, h2, h3⟩ := hw
  have hne : ft ≠ "" := by
    rintro rfl
    simp [function_items] at h3
  interval_cases idx <;>
    [rcases mi with _ | mi <;> rcases ma with _ | ma;
     rcases moi with _ | moi;
     rcases mao with _ | mao;
     skip;
     skip] <;>
    simp [NumberFilterWidget.get_filter_dict, NumberFilterWidget.min_set,
      NumberFilterWidget.max_set, optEntry, Json.get?, getKey, hne]

/-- A numeric filter in Min Only mode with min 5 serializes with
`min: 5` and no `max` key at all. -/
theorem c4_numeric_min_max_key_iff_witness :
    (⟨"Sales", 1, "SUM", none, none, some 5, none⟩ : NumberFilterWidget).Constructible ∧
    ((⟨"Sales", 1, "SUM", none, none, some 5, none⟩ : NumberFilterWidget).get_filter_dict.get?
        "min" = some (Json.num 5) ∧
     (⟨"Sales", 1, "SUM", none, none, some 5, none⟩ : NumberFilterWidget).get_filter_dict.get?
        "max" = none) :=
  ⟨by decide, c4_numeric_min_max_key_iff ⟨"Sales", 1, "SUM", none, none, some 5, none⟩ (by decide)⟩

/-- C9: every serialized numeric-range filter, in every mode, carries a
`function` key inside its `field` object holding the aggregation combo
text (the combo always holds one of the five nonempty items, `SUM` by
default), even though the abstract model treats aggregation as
optional. -/
theorem c9_function_key_always_present (w : NumberFilterWidget) (hw : w.Constructible) :
    (w.get_filter_dict.get? "field").bind (fun f => f.get? "function") =
      some (Json.str w.function_text) := by
  obtain ⟨fn, idx, ft, mi, ma, moi, mao⟩ := w
  obtain ⟨h1, h2, h3⟩ := hw
  have hne : ft ≠ "" := by
    rintro rfl
    simp [function_items] at h3
  interval_cases idx <;>
    simp [NumberFilterWidget.get_filter_dict, optEntry, Json.get?, getKey, hne]

/-- A freshly created numeric filter widget already serializes with the
default aggregation `SUM` in its field object. -/
theorem c9_function_key_always_present_witness :
    (NumberFilterWidget_new "Profit").Constructible ∧
    ((NumberFilterWidget_new "Profit").get_filter_dict.get? "field").bind
        (fun f => f.get? "function") = some (Json.str "SUM") :=
  ⟨by decide, c9_function_key_always_present (NumberFilterWidget_new "Profit") (by decide)⟩

/-- C10: every serialized date filter in Quantitative mode with sub-mode
Range carries both a `minDate` and a `maxDate` key, holding the two
date-picker dates (the pickers always hold concrete dates, seeded with
one month ago and today), so a quantitative date range is never
serialized open-ended. -/
theorem c10_quant_date_range_closed (w : DateFilterWidget)
    (hq : w.filter_type_index = 0) (hr : w.quant_type_index = 0) :
    w.get_filter_dict.get? "minDate" = some (Json.date w.from_date) ∧
    w.get_filter_dict.get? "maxDate" = some (Json.date w.to_date) := by
  simp [DateFilterWidget.get_filter_dict, Json.get?, getKey, hq, hr]

/-- A freshly created date filter widget is in quantitative Range mode
and serializes with both `minDate` (one month ago) and `maxDate`
(today). -/
theorem c10_quant_date_range_closed_witness :
    (DateFilterWidget_new "Order Date" ⟨2024, 2, 1⟩ ⟨2024, 1, 1⟩).get_filter_dict.get?
        "minDate" = some (Json.date ⟨2024, 1, 1⟩) ∧
    (DateFilterWidget_new "Order Date" ⟨2024, 2, 1⟩ ⟨2024, 1, 1⟩).get_filter_dict.get?
        "maxDate" = some (Json.date ⟨2024, 2, 1⟩) :=
  c10_quant_date_range_closed (DateFilterWidget_new "Order Date" ⟨2024, 2, 1⟩ ⟨2024, 1, 1⟩)
    rfl rfl

/-- C3 fails on the code: a schedule saved from an eleven-dimension
selection stores all eleven dimensions, and the payload built for its
scheduled execution contains all eleven dimension entries, not the first
ten. -/
theorem c3_schedule_path_not_capped :
    (standalone_query_fields
      (save_schedule_dimensions
        ["d1", "d2", "d3", "d4", "d5", "d6", "d7", "d8", "d9", "d10", "d11"]) []).length = 11 ∧
    (11 : Nat) ≠ 10 :=
  ⟨rfl, by decide⟩

/-- A dimension entry of the wire payload carries no `function` key. -/
theorem dimension_field_no_function (f : String) :
    (dimension_field f).hasKey "function" = false := by
  simp [dimension_field, Json.hasKey, Json.get?, getKey]

/-- A measure entry of the wire payload carries a `function` key. -/
theorem measure_field_has_function (f agg : String) :
    (measure_field f agg).hasKey "function" = true := by
  simp [measure_field, Json.hasKey, Json.get?, getKey]

/-- Dimension entries all survive the no-function filter. -/
theorem filter_no_function_dimensions (l : List String) :
    (l.map dimension_field).filter (fun j => !(j.hasKey "function")) =
      l.map dimension_field := by
  rw [List.filter_eq_self]
  intro a ha
  rcases List.mem_map.mp ha with ⟨f, _, rfl⟩
  simp [dimension_field_no_function]

/-- The interactive path's measure entries are all dropped by the
no-function filter. -/
theorem filter_no_function_measure_rows (ms : List (String × String)) :
    (ms.filterMap (fun p =>
      if p.1 ≠ "Select Measure" then some (measure_field p.1 p.2) else none)).filter
      (fun j => !(j.hasKey "function")) = [] := by
  rw [List.filter_eq_nil_iff]
  intro a ha
  rcases List.mem_filterMap.mp ha with ⟨p, _, hp⟩
  rcases Decidable.em (p.1 ≠ "Select Measure") with hc | hc
  · rw [if_pos hc] at hp
    rcases Option.some.inj hp with rfl
    simp [measure_field_has_function]
  · rw [if_neg hc] at hp
    cases hp

/-- The schedule path's measure entries are all dropped by the
no-function filter. -/
theorem filter_no_function_measures (ms : List (String × String)) :
    (ms.map (fun p => measure_field p.1 p.2)).filter
      (fun j => !(j.hasKey "function")) = [] := by
  rw [List.filter_eq_nil_iff]
  intro a ha
  rcases List.mem_map.mp ha with ⟨p, _, rfl⟩
  simp [measure_field_has_function]

/-- C3 amended: in the payload built by the interactive
`query_data_source` path, the dimension entries --- the field entries
carrying no aggregation `function` key --- are exactly the first ten
selected dimensions in original order (so their number is capped at
ten: `min 10` of the selection size), while the saved-schedule path
stores and executes every selected dimension, uncapped; no warning
signal accompanies the truncation (the builder returns only the field
list). -/
theorem c3_dimension_cap (dims : List String) (ms sms : List (String × String)) :
    (query_data_source_fields dims ms).filter (fun j => !(j.hasKey "function")) =
      (dims.take 10).map dimension_field ∧
    ((query_data_source_fields dims ms).filter (fun j => !(j.hasKey "function"))).length =
      min 10 dims.length ∧
    (standalone_query_fields (save_schedule_dimensions dims) sms).filter
      (fun j => !(j.hasKey "function")) = dims.map dimension_field := by
  have h1 : (query_data_source_fields dims ms).filter (fun j => !(j.hasKey "function")) =
      (dims.take 10).map dimension_field := by
    rw [query_data_source_fields, List.filter_append, filter_no_function_dimensions,
      filter_no_function_measure_rows, List.append_nil]
  refine ⟨h1, ?_, ?_⟩
  · rw [h1]
    simp [List.length_take]
  · rw [standalone_query_fields, save_schedule_dimensions, List.filter_append,
      filter_no_function_dimensions, filter_no_function_measures, List.append_nil]

/-- C2 exposes a code bug: a successful run with zero result records
does report the distinct no-results outcome, but the export code opens
the output file before checking the result list, so an empty output file
is created in the output directory, contrary to the documented behavior
that no file is written. -/
theorem c2_empty_result_outcome :
    run_scheduled_query_standalone "Sales" "report_\x7bdate\x7d" "/out" 200 "" []
        "2024-01-15" "12-00-00" =
      ⟨"Query completed but returned no results", [("/out/report_2024-01-15.csv", [])]⟩ ∧
    (run_scheduled_query_standalone "Sales" "report_\x7bdate\x7d" "/out" 200 "" []
        "2024-01-15" "12-00-00").files ≠ [] := by
  constructor
  · decide
  · intro h
    simp [run_scheduled_query_standalone] at h

/-- Adding a job with `replace_existing` leaves exactly that job under
its id. -/
theorem jobs_with_id_add_job (jobs : List SchedulerJob) (j : SchedulerJob) :
    jobs_with_id (add_job jobs j) j.id = [j] := by
  simp [jobs_with_id, add_job, List.filter_append, List.filter_filter]

/-- Removing a job id leaves no job under it. -/
theorem jobs_with_id_remove_job (jobs : List SchedulerJob) (id : String) :
    jobs_with_id (remove_job jobs id) id = [] := by
  simp [jobs_with_id, remove_job, List.filter_filter]

/-- After a save with a known frequency, exactly the saved job is live
under the schedule's job id. -/
theorem save_schedule_jobs_named (st : SchedulerState) (s : ScheduleRec)
    (hf : s.frequency = "Daily" ∨ s.frequency = "Weekly" ∨ s.frequency = "Monthly") :
    jobs_with_id (save_schedule st s).jobs (job_id_for s.name) = [save_schedule_job s] := by
  have : save_schedule_ops st s =
      (if (replace_first st.schedules s).2 ∧ (get_job st.jobs (job_id_for s.name)).isSome then
        [SchedOp.removeJob (job_id_for s.name)] else []) ++
      [SchedOp.addJob (save_schedule_job s)] := by
    simp [save_schedule_ops, hf]
  rw [save_schedule, this, List.foldl_append]
  exact jobs_with_id_add_job _ _

/-- Filtering by a matching name commutes with cons. -/
theorem schedules_named_cons_pos (e : ScheduleRec) (rest : List ScheduleRec) (n : String)
    (he : e.name = n) :
    schedules_named (e :: rest) n = e :: schedules_named rest n := by
  simp [schedules_named, List.filter_cons, he]

/-- Filtering by a non-matching name skips the head. -/
theorem schedules_named_cons_neg (e : ScheduleRec) (rest : List ScheduleRec) (n : String)
    (he : ¬ e.name = n) :
    schedules_named (e :: rest) n = schedules_named rest n := by
  simp [schedules_named, List.filter_cons, he]

/-- The store update of `save_schedule` leaves exactly the new entry
under its name, provided the store held at most one entry with it. -/
theorem schedules_named_save_schedule (l : List ScheduleRec) (s : ScheduleRec)
    (h : (schedules_named l s.name).length ≤ 1) :
    schedules_named (if (replace_first l s).2 then (replace_first l s).1 else l ++ [s])
      s.name = [s] := by
  induction l with
  | nil => simp [replace_first, schedules_named]
  | cons e rest ih =>
      by_cases he : e.name = s.name
      · have hrest : schedules_named rest s.name = [] := by
          rw [schedules_named_cons_pos e rest s.name he] at h
          simpa using h
        have hrf : replace_first (e :: rest) s = (s :: rest, true) := by
          simp [replace_first, he]
        rw [hrf]
        simp only [ite_true]
        rw [schedules_named_cons_pos s rest s.name rfl, hrest]
      · have h2 : (schedules_named rest s.name).length ≤ 1 := by
          rw [schedules_named_cons_neg e rest s.name he] at h
          exact h
        have step := ih h2
        have hrf : replace_first (e :: rest) s =
            (e :: (replace_first rest s).1, (replace_first rest s).2) := by
          simp [replace_first, he]
        rw [hrf]
        by_cases hfound : (replace_first rest s).2
        · simp only [hfound, ite_true] at step ⊢
          rw [schedules_named_cons_neg e _ s.name he]
          exact step
        · simp only [hfound, ite_false, Bool.false_eq_true] at step ⊢
          rw [List.cons_append, schedules_named_cons_neg e _ s.name he]
          exact step

/-- C5: saving a schedule twice under the same name (with any cadences
among Daily, Weekly, Monthly), starting from a store holding at most one
entry with that name, leaves exactly one stored entry with that name ---
the second save --- and exactly one live trigger whose job id is
`query_` followed by the name with spaces replaced by underscores,
carrying the second save's trigger; and at every prefix of the scheduler
operations issued by the second save at most one job with that id is
live (the old trigger is removed before the new one is added, and the
add itself replaces atomically), so there is never a window with two
live triggers for the name. -/
theorem c5_schedule_replace_on_duplicate_name (st : SchedulerState) (s1 s2 : ScheduleRec)
    (hname : s1.name = s2.name)
    (hsched : (schedules_named st.schedules s2.name).length ≤ 1)
    (hf1 : s1.frequency = "Daily" ∨ s1.frequency = "Weekly" ∨ s1.frequency = "Monthly")
    (hf2 : s2.frequency = "Daily" ∨ s2.frequency = "Weekly" ∨ s2.frequency = "Monthly") :
    schedules_named (save_schedule (save_schedule st s1) s2).schedules s2.name = [s2] ∧
    jobs_with_id (save_schedule (save_schedule st s1) s2).jobs (job_id_for s2.name) =
      [save_schedule_job s2] ∧
    ∀ k, (jobs_with_id
        (((save_schedule_ops (save_schedule st s1) s2).take k).foldl apply_op
          (save_schedule st s1).jobs) (job_id_for s2.name)).length ≤ 1 := by
  have hA : schedules_named (save_schedule st s1).schedules s1.name = [s1] :=
    schedules_named_save_schedule st.schedules s1 (by rw [hname]; exact hsched)
  rw [hname] at hA
  have hJ1 : jobs_with_id (save_schedule st s1).jobs (job_id_for s2.name) =
      [save_schedule_job s1] := by
    have := save_schedule_jobs_named st s1 hf1
    rwa [hname] at this
  refine ⟨?_, save_schedule_jobs_named (save_schedule st s1) s2 hf2, ?_⟩
  · exact schedules_named_save_schedule (save_schedule st s1).schedules s2 (by rw [hA]; simp)
  · have hops : save_schedule_ops (save_schedule st s1) s2 =
        (if (replace_first (save_schedule st s1).schedules s2).2 ∧
            (get_job (save_schedule st s1).jobs (job_id_for s2.name)).isSome then
          [SchedOp.removeJob (job_id_for s2.name)] else []) ++
        [SchedOp.addJob (save_schedule_job s2)] := by
      simp [save_schedule_ops, hf2]
    intro k
    rw [hops]
    by_cases hpre : (replace_first (save_schedule st s1).schedules s2).2 ∧
        (get_job (save_schedule st s1).jobs (job_id_for s2.name)).isSome
    · simp only [hpre, ite_true]
      rcases k with _ | _ | k
      · simp [hJ1]
      · simp [List.take, apply_op, jobs_with_id_remove_job]
      · simp only [List.take, List.foldl]
        have := jobs_with_id_add_job
          (apply_op (save_schedule st s1).jobs (SchedOp.removeJob (job_id_for s2.name)))
          (save_schedule_job s2)
        simp [apply_op, save_schedule_job] at this
        simp [apply_op, this, save_schedule_job]
    · simp only [hpre, ite_false]
      rcases k with _ | k
      · simp [hJ1]
      · simp only [List.nil_append, List.take, List.foldl]
        have := jobs_with_id_add_job (save_schedule st s1).jobs (save_schedule_job s2)
        simp [apply_op, save_schedule_job] at this
        simp [apply_op, this, save_schedule_job]

/-- Instantiation of the schedule-replacement theorem: two consecutive
saves of `Weekly Report` with different cadences from an empty store. -/
theorem c5_schedule_replace_witness :
    weekly_report_v1.name = weekly_report_v2.name ∧
    (schedules_named (SchedulerState.mk [] []).schedules weekly_report_v2.name).length ≤ 1 ∧
    schedules_named
        (save_schedule (save_schedule ⟨[], []⟩ weekly_report_v1) weekly_report_v2).schedules
        weekly_report_v2.name = [weekly_report_v2] ∧
    jobs_with_id
        (save_schedule (save_schedule ⟨[], []⟩ weekly_report_v1) weekly_report_v2).jobs
        (job_id_for weekly_report_v2.name) = [save_schedule_job weekly_report_v2] ∧
    (jobs_with_id
        (((save_schedule_ops (save_schedule ⟨[], []⟩ weekly_report_v1) weekly_report_v2).take 1).foldl
          apply_op (save_schedule ⟨[], []⟩ weekly_report_v1).jobs)
        (job_id_for weekly_report_v2.name)).length ≤ 1 :=
  ⟨rfl, by decide,
   (c5_schedule_replace_on_duplicate_name ⟨[], []⟩ weekly_report_v1 weekly_report_v2 rfl
     (by decide) (by decide) (by decide)).1,
   (c5_schedule_replace_on_duplicate_name ⟨[], []⟩ weekly_report_v1 weekly_report_v2 rfl
     (by decide) (by decide) (by decide)).2.1,
   (c5_schedule_replace_on_duplicate_name ⟨[], []⟩ weekly_report_v1 weekly_report_v2 rfl
     (by decide) (by decide) (by decide)).2.2 1⟩

/-- Replaying one entry either registers its job (replacing any job
with the same id) or leaves the jobs untouched. -/
theorem recreate_schedule_job_eq (jobs : List (String × CronTrigger)) (d : LoadedSchedule) :
    recreate_schedule_job jobs d =
      match d.replay_job with
      | some p => jobs.filter (fun x => decide (x.1 ≠ p.1)) ++ [p]
      | none => jobs := by
  rcases d with ⟨n, f, h, m, dw, dm⟩
  rcases n with _ | n <;> rcases f with _ | f <;> rcases h with _ | h <;> rcases m with _ | m <;>
    simp only [recreate_schedule_job, LoadedSchedule.replay_job, try_add_job]
  rcases dw with _ | dw <;> rcases dm with _ | dm <;>
    (try split_ifs) <;> (try simp_all) <;> (try split_ifs) <;> (try simp_all)

/-- After replaying a replayable entry its job is live. -/
theorem find_after_recreate (jobs : List (String × CronTrigger)) (d : LoadedSchedule)
    (p : String × CronTrigger) (hp : d.replay_job = some p) :
    (recreate_schedule_job jobs d).find? (fun x => decide (x.1 = p.1)) = some p := by
  rw [recreate_schedule_job_eq, hp]
  have hnone : (jobs.filter (fun x => decide (x.1 ≠ p.1))).find?
      (fun x => decide (x.1 = p.1)) = none := by
    rw [List.find?_eq_none]
    intro x hx
    simp only [List.mem_filter, decide_not] at hx
    simpa using hx.2
  rw [List.find?_append, hnone]
  simp

/-- Dropping jobs of one id does not change the lookup of another. -/
theorem find?_filter_ne (jobs : List (String × CronTrigger)) (a b : String) (hne : b ≠ a) :
    (jobs.filter (fun x => decide (x.1 ≠ a))).find? (fun x => decide (x.1 = b)) =
      jobs.find? (fun x => decide (x.1 = b)) := by
  induction jobs with
  | nil => rfl
  | cons y rest ih =>
      by_cases hy : y.1 = a
      · have hyb : ¬ (y.1 = b) := by
          rw [hy]
          exact fun h => hne h.symm
        rw [List.filter_cons_of_neg (by simpa using hy), List.find?_cons_of_neg _ (by simpa using hyb)]
        exact ih
      · rw [List.filter_cons_of_pos (by simpa using hy)]
        by_cases hyb : y.1 = b
        · rw [List.find?_cons_of_pos _ (by simpa using hyb),
            List.find?_cons_of_pos _ (by simpa using hyb)]
        · rw [List.find?_cons_of_neg _ (by simpa using hyb),
            List.find?_cons_of_neg _ (by simpa using hyb)]
          exact ih

/-- Replaying an entry does not disturb jobs under other ids. -/
theorem recreate_preserves_other (jobs : List (String × CronTrigger)) (d : LoadedSchedule)
    (id : String) (hid : ∀ p, d.replay_job = some p → p.1 ≠ id) :
    (recreate_schedule_job jobs d).find? (fun x => decide (x.1 = id)) =
      jobs.find? (fun x => decide (x.1 = id)) := by
  rw [recreate_schedule_job_eq]
  cases hp : d.replay_job with
  | none => rfl
  | some p =>
      have hne : p.1 ≠ id := hid p hp
      rw [List.find?_append, find?_filter_ne jobs p.1 id (fun h => hne h.symm)]
      cases hfind : jobs.find? (fun x => decide (x.1 = id)) with
      | some q => rfl
      | none =>
          simp [List.find?, hne]

/-- Folding the replay over a persisted list with distinct job ids
leaves every replayable entry's job live. -/
theorem replay_foldl (l : List LoadedSchedule) (jobs : List (String × CronTrigger))
    (hnodup : (replay_ids l).Nodup) :
    ∀ d ∈ l, ∀ p, d.replay_job = some p →
      (l.foldl recreate_schedule_job jobs).find? (fun x => decide (x.1 = p.1)) = some p := by
  induction l generalizing jobs with
  | nil => intro d hd; exact absurd hd (List.not_mem_nil d)
  | cons d0 rest ih =>
      intro d hd p hp
      rcases List.mem_cons.mp hd with rfl | hdrest
      · -- the head entry: add its job, then the tail leaves it alone
        have hids : p.1 ∉ replay_ids rest := by
          have : replay_ids (d :: rest) = p.1 :: replay_ids rest := by
            simp [replay_ids, List.filterMap_cons, hp]
          rw [this] at hnodup
          exact (List.nodup_cons.mp hnodup).1
        have hframe : ∀ d2 ∈ rest, ∀ q, d2.replay_job = some q → q.1 ≠ p.1 := by
          intro d2 hd2 q hq hcontra
          exact hids (by
            rw [← hcontra]
            exact List.mem_filterMap.mpr ⟨d2, hd2, by rw [hq]; rfl⟩)
        have hstep : (recreate_schedule_job jobs d).find? (fun x => decide (x.1 = p.1)) =
            some p := find_after_recreate jobs d p hp
        rw [List.foldl_cons]
        have hgen : ∀ (rest2 : List LoadedSchedule),
            (∀ d2 ∈ rest2, ∀ (q : String × CronTrigger), d2.replay_job = some q → q.1 ≠ p.1) →
            ∀ (jobs2 : List (String × CronTrigger)),
              (rest2.foldl recreate_schedule_job jobs2).find?
              (fun x => decide (x.1 = p.1)) =
            jobs2.find? (fun x => decide (x.1 = p.1)) := by
          intro rest2
          induction rest2 with
          | nil => intro _ jobs2; rfl
          | cons e tail ihe =>
              intro hfr jobs2
              rw [List.foldl_cons]
              have he : ∀ q, e.replay_job = some q → q.1 ≠ p.1 :=
                hfr e (List.mem_cons_self e tail)
              rw [ihe (fun d2 hd2 => hfr d2 (List.mem_cons_of_mem e hd2)) _]
              exact recreate_preserves_other jobs2 e p.1 he
        rw [hgen rest hframe]
        exact hstep
      · have htail : (replay_ids rest).Nodup := by
          rcases hq : d0.replay_job with _ | q
          · have : replay_ids (d0 :: rest) = replay_ids rest := by
              simp [replay_ids, List.filterMap_cons, hq]
            rwa [this] at hnodup
          · have : replay_ids (d0 :: rest) = q.1 :: replay_ids rest := by
              simp [replay_ids, List.filterMap_cons, hq]
            rw [this] at hnodup
            exact (List.nodup_cons.mp hnodup).2
        rw [List.foldl_cons]
        exact ih (recreate_schedule_job jobs d0) htail d hdrest p hp

/-- C6: startup replay of a persisted schedule list (with distinct job
ids among the replayable entries) reconstructs a live trigger for every
replayable entry, while an entry that cannot be replayed --- missing
fields, unknown frequency, or cadence data the trigger mechanism rejects
--- is skipped leaving the live jobs unchanged; the replay functions are
total, so a bad entry never aborts loading the remaining schedules. -/
theorem c6_startup_replay (schedules : List LoadedSchedule)
    (hnodup : (replay_ids schedules).Nodup) :
    (∀ d ∈ schedules, ∀ (p : String × CronTrigger), d.replay_job = some p →
      (load_schedules_from_disk schedules).find? (fun x => decide (x.1 = p.1)) = some p) ∧
    (∀ (jobs : List (String × CronTrigger)) (d : LoadedSchedule), d.replay_job = none →
      recreate_schedule_job jobs d = jobs) := by
  constructor
  · exact replay_foldl schedules [] hnodup
  · intro jobs d hd
    rw [recreate_schedule_job_eq, hd]

/-- Instantiation of the startup-replay theorem: a three-entry list
whose middle entry has an invalid frequency still yields the weekly
entry's trigger, and the bad entry alone changes nothing. -/
theorem c6_startup_replay_witness :
    (replay_ids [daily_sales_entry, broken_entry, weekly_report_entry]).Nodup ∧
    (load_schedules_from_disk [daily_sales_entry, broken_entry, weekly_report_entry]).find?
        (fun x => decide (x.1 = "query_Weekly_Report")) =
      some ("query_Weekly_Report", ⟨some 1, none, 8, 30⟩) ∧
    recreate_schedule_job [] broken_entry = [] :=
  ⟨by decide,
   (c6_startup_replay [daily_sales_entry, broken_entry, weekly_report_entry] (by decide)).1
     weekly_report_entry (by decide) ("query_Weekly_Report", ⟨some 1, none, 8, 30⟩) (by decide),
   (c6_startup_replay [daily_sales_entry, broken_entry, weekly_report_entry] (by decide)).2
     [] broken_entry (by decide)⟩

/-- C7 fails on the code: the interactive query path can observe an
authentication rejection, yet on a 401 it performs exactly one post,
never re-authenticates, and surfaces the error immediately --- there is
no retry. -/
theorem c7_interactive_query_no_retry :
    query_data_source_request 401 = ([ReqEvent.post], false) ∧
    (query_data_source_request 401).1.count ReqEvent.post = 1 ∧
    ReqEvent.sign_in ∉ (query_data_source_request 401).1 := by
  decide

/-- C7 amended: the metadata path `fetch_fields` implements the
retry policy --- at most 3 posts for any response sequence, and under
persistent 401s each rejection is followed immediately by a
re-authentication with the fixed delay between attempts before the
terminal failure --- while the interactive `query_data_source` path
performs a single post and surfaces any non-200 status as a terminal
error with no re-authentication and no retry. -/
theorem c7_auth_retry_policy (responses : Nat → Nat) (status : Nat) (hs : status ≠ 200) :
    (fetch_fields responses).1.count ReqEvent.post ≤ 3 ∧
    fetch_fields (fun _ => 401) =
      ([ReqEvent.post, ReqEvent.sign_in, ReqEvent.sleep, ReqEvent.post, ReqEvent.sign_in,
        ReqEvent.sleep, ReqEvent.post, ReqEvent.sign_in], false) ∧
    query_data_source_request status = ([ReqEvent.post], false) := by
  refine ⟨?_, by decide, ?_⟩
  · simp only [fetch_fields, fetch_fields_attempts]
    split_ifs <;> simp [List.count_cons, List.count_append]
  · simp [query_data_source_request, hs]

/-- Instantiation of the retry-policy statement at the all-401 oracle
and a 401 interactive query. -/
theorem c7_auth_retry_policy_witness :
    (401 : Nat) ≠ 200 ∧
    (fetch_fields (fun _ => 401)).1.count ReqEvent.post ≤ 3 ∧
    query_data_source_request 401 = ([ReqEvent.post], false) :=
  ⟨by decide, (c7_auth_retry_policy (fun _ => 401) 401 (by decide)).1,
   (c7_auth_retry_policy (fun _ => 401) 401 (by decide)).2.2⟩

/-- C8 fails on the code: when `cancel()` lands between the
post-response cancellation check and the signal emission, the completion
signal is still emitted after the cancellation. -/
theorem c8_cancel_race_emits :
    emitted_after_cancel (some 3) = true ∧ query_worker_run (some 3) = true := by
  decide

/-- C8 amended: cancellation is only check-point based --- a
`cancel()` taking effect at any point up to and including the
post-response cancellation check suppresses both the success and the
error callback, but a cancel landing after that check and before the
emission does not (see the counterexample). -/
theorem c8_cancel_suppresses_up_to_final_check (k : Nat) (h : k ≤ 2) :
    query_worker_run (some k) = false ∧ emitted_after_cancel (some k) = false := by
  have hrun : query_worker_run (some k) = false := by
    simp [query_worker_run, is_cancelled_at, h]
  exact ⟨hrun, by simp [emitted_after_cancel, hrun]⟩

/-- Instantiation of the suppression statement: cancel between the
pre-request check and the post. -/
theorem c8_cancel_suppresses_witness :
    (1 : Nat) ≤ 2 ∧ query_worker_run (some 1) = false ∧ emitted_after_cancel (some 1) = false :=
  ⟨by decide, (c8_cancel_suppresses_up_to_final_check 1 (by decide)).1,
   (c8_cancel_suppresses_up_to_final_check 1 (by decide)).2⟩
